import Mathlib

/-!
Verification development for the ragas repository slice consisting of the
notebook docs/howtos/customizations/testgenerator/testgen-customisation.ipynb
and the monorepo configuration file workspace.toml.

The notebook subclasses the external library class MultiHopQuerySynthesizer
and overrides one method, an async method named with a leading underscore and
called generate underscore scenarios, whose body is authored in this
repository.  Everything that method calls (the knowledge-graph query, the
persona-matching prompt, combination preparation, diverse sampling) lives in
the external ragas library, which this slice treats as an opaque dependency;
those operations are therefore embedded as oracle parameters or, where a
claim needs their documented behaviour, as small models noted as such in
their doc comments.

Python integers in the authored code are non-negative counts, embedded as
Nat; Python floor division by zero raises ZeroDivisionError, embedded as an
Except error; Python dict key lookup raises KeyError on a missing key,
embedded likewise.
-/

/-- Errors a Python run of the notebook code can surface: the authored
division raising ZeroDivisionError, a missing dict key raising KeyError, and
arbitrary failures raised inside the external library. -/
inductive PyError where
  | zeroDivision : PyError
  | keyError : String → PyError
  | libError : String → PyError
deriving DecidableEq, Repr

/-- A knowledge-graph node of the external library: an identifier, a node
type, and a property mapping.  Only the fields the authored code touches are
modelled; node property values are kept as strings since the authored method
never reads them. -/
structure Node where
  id : Nat
  type : String
  properties : List (String × String)
deriving DecidableEq, Repr

/-- A typed relationship between two nodes.  The authored code reads exactly
one relationship property, the key "overlapped_items", whose value is a list
of pairs of overlapping keyphrases, so property values are modelled with that
shape. -/
structure Relationship where
  source : Node
  target : Node
  type : String
  properties : List (String × List (String × String))
deriving DecidableEq, Repr

/-- The external library knowledge graph: nodes plus typed relationships. -/
structure KnowledgeGraph where
  nodes : List Node
  relationships : List Relationship
deriving DecidableEq, Repr

/-- A (node_a, relationship, node_b) triplet as returned by the graph query;
the Python code indexes it with triplet[0], triplet[1] and triplet[-1]. -/
structure Triplet where
  nodeA : Node
  rel : Relationship
  nodeB : Node
deriving DecidableEq, Repr

/-- A persona from the external library: a name and a role description. -/
structure Persona where
  name : String
  role_description : String
deriving DecidableEq, Repr

/-- A multi-hop scenario from the external library: nodes, keyphrase
combinations, query style, query length and a persona. -/
structure MultiHopScenario where
  nodes : List Node
  combinations : List String
  style : String
  length : String
  persona : Persona
deriving DecidableEq, Repr

/-- Input of the persona-matching prompt: themes and personas. -/
structure ThemesPersonasInput where
  themes : List String
  personas : List Persona
deriving DecidableEq, Repr

/-- Output of the persona-matching prompt: a mapping from persona names to
matched concepts. -/
structure PersonaConcepts where
  mapping : List (String × List String)
deriving DecidableEq, Repr

/-- The asynchronous operations awaited by the notebook, recorded as events
so the suspension behaviour of the authored code can be stated.  The first
constructor is the await inside the overridden method (the persona-matching
prompt call); the other two are the notebook top-level awaits. -/
inductive AwaitEvent where
  | promptGenerate (themes : List String) (personas : List Persona)
  | generateScenariosCall
  | generateSampleCall
deriving DecidableEq, Repr

/-- Modelled from the spec: the external library operations the overridden
method delegates to, absent from this repository slice.  The fields embed,
in order, the awaited generate call of ThemesPersonasMatchingPrompt (with the
synthesizer llm and the callbacks folded in), the inherited
prepare_combinations, and the inherited sample_diverse_combinations.  Each
may fail with an arbitrary library error. -/
structure Oracles where
  themePersonaGenerate : ThemesPersonasInput → Except PyError PersonaConcepts
  prepare_combinations : List Node → List (List String) → List Persona →
      List (String × List String) → String → Except PyError (List MultiHopScenario)
  sample_diverse_combinations : List MultiHopScenario → Nat →
      Except PyError (List MultiHopScenario)

/-- Python dict lookup on a property mapping: the value at the key, or a
KeyError when the key is absent. -/
def lookupProp (props : List (String × List (String × String))) (key : String) :
    Except PyError (List (String × String)) :=
  match props.find? (fun p => p.1 == key) with
  | some p => Except.ok p.2
  | none => Except.error (PyError.keyError key)

/-- Python floor division of non-negative integers, raising ZeroDivisionError
on a zero divisor as the expression n // len(results) does when the query
returns no triplets. -/
def pyFloorDiv (a b : Nat) : Except PyError Nat :=
  if b = 0 then Except.error PyError.zeroDivision else Except.ok (a / b)

/-- The relationship condition lambda authored in the notebook: True if
rel.type == "keyphrases_overlap" else False. -/
def relationship_condition (rel : Relationship) : Bool :=
  if rel.type = "keyphrases_overlap" then true else false

/-- Modelled from the spec: the external library query
KnowledgeGraph.find_two_nodes_single_rel, absent from this repository slice.
Per the spec it returns the node pairs sharing a relationship that satisfies
the given condition, as (node_a, relationship, node_b) triplets, skipping
self-loops. -/
def find_two_nodes_single_rel (kg : KnowledgeGraph) (cond : Relationship → Bool) :
    List Triplet :=
  (kg.relationships.filter cond).filterMap (fun r =>
    if r.source ≠ r.target then some ⟨r.source, r, r.target⟩ else none)

/-- Python dict built from a list of pairs, then its keys in order: the first
occurrence order of the first components, as computed by
list(dict(overlapped_keywords).keys()). -/
def pyDictKeys (pairs : List (String × String)) : List String :=
  pairs.foldl (fun acc p => if p.1 ∈ acc then acc else acc ++ [p.1]) []

/-- The quota expression of the overridden method:
num_sample_per_triplet = max(1, n // len(results)), with T the number of
triplets returned by the graph query.  The division happens before max is
applied, so a zero T raises ZeroDivisionError. -/
def num_sample_per_triplet (n T : Nat) : Except PyError Nat :=
  (pyFloorDiv n T).map (fun d => max 1 d)

/-- One iteration of the loop body of the overridden method, for one triplet:
the guard len(scenarios) < n, the lookup of the "overlapped_items" property,
the truthiness test on it, the awaited persona-matching prompt call, the
combination preparation and the diverse sampling.  Returns the updated
scenario list together with the await events of this iteration. -/
def processTriplet (O : Oracles) (n q : Nat) (pl : List Persona)
    (scenarios : List MultiHopScenario) (t : Triplet) :
    Except PyError (List MultiHopScenario × List AwaitEvent) :=
  if scenarios.length < n then
    match lookupProp t.rel.properties "overlapped_items" with
    | Except.error e => Except.error e
    | Except.ok ks =>
      if ks.isEmpty then Except.ok (scenarios, [])
      else
        match O.themePersonaGenerate ⟨pyDictKeys ks, pl⟩ with
        | Except.error e => Except.error e
        | Except.ok pc =>
          match O.prepare_combinations [t.nodeA, t.nodeB]
              (ks.map (fun p => [p.1, p.2])) pl pc.mapping "keyphrases" with
          | Except.error e => Except.error e
          | Except.ok base =>
            match O.sample_diverse_combinations base q with
            | Except.error e => Except.error e
            | Except.ok base2 =>
              Except.ok (scenarios ++ base2, [AwaitEvent.promptGenerate (pyDictKeys ks) pl])
  else Except.ok (scenarios, [])

/-- The for-loop of the overridden method over the query result, threading the
scenario accumulator and the await-event trace, stopping with the first error
raised (the authored code installs no handler). -/
def generateScenariosLoop (O : Oracles) (n q : Nat) (pl : List Persona) :
    List Triplet → List MultiHopScenario → List AwaitEvent →
    Except PyError (List MultiHopScenario × List AwaitEvent)
  | [], scenarios, trace => Except.ok (scenarios, trace)
  | t :: rest, scenarios, trace =>
    match processTriplet O n q pl scenarios t with
    | Except.error e => Except.error e
    | Except.ok (s, evs) => generateScenariosLoop O n q pl rest s (trace ++ evs)

/-- The overridden method of MyMultiHopQuery.  Faithful to the notebook cell:
the graph query is invoked on the notebook module-level variable kg captured
by closure (here globalKg), not on the knowledge_graph parameter, which the
body never uses.  Returns the scenario list together with the await-event
trace of the run. -/
def _generate_scenarios (O : Oracles) (globalKg : KnowledgeGraph) (n : Nat)
    (knowledge_graph : KnowledgeGraph) (persona_list : List Persona) :
    Except PyError (List MultiHopScenario × List AwaitEvent) :=
  let results := find_two_nodes_single_rel globalKg relationship_condition
  match num_sample_per_triplet n results.length with
  | Except.error e => Except.error e
  | Except.ok q => generateScenariosLoop O n q persona_list results [] []

/-! Concrete fixtures used to instantiate theorems with hypotheses and to
refute claims at explicit inputs. -/

/-- A document node like the ones the notebook appends to the graph. -/
def nodeA : Node := ⟨0, "DOCUMENT", [("page_content", "docA")]⟩

/-- A second document node. -/
def nodeB : Node := ⟨1, "DOCUMENT", [("page_content", "docB")]⟩

/-- The two personas defined in the notebook. -/
def persona_list : List Persona :=
  [⟨"gitlab employee", "A junior gitlab employee curious on workings on gitlab"⟩,
   ⟨"Hiring manager at gitlab",
    "A hiring manager at gitlab trying to underestand hiring policies in gitlab"⟩]

/-- A keyphrases_overlap relationship carrying a non-empty overlapped_items
property, as the OverlapScoreBuilder transform produces. -/
def relOverlap : Relationship :=
  ⟨nodeA, nodeB, "keyphrases_overlap",
   [("overlapped_items", [("hiring", "hiring policies"), ("gitlab", "gitlab handbook")])]⟩

/-- A keyphrases_overlap relationship whose overlapped_items list is empty. -/
def relOverlapEmptyItems : Relationship :=
  ⟨nodeA, nodeB, "keyphrases_overlap", [("overlapped_items", [])]⟩

/-- A keyphrases_overlap relationship with no overlapped_items property, on
which the authored lookup raises KeyError. -/
def relNoItems : Relationship :=
  ⟨nodeA, nodeB, "keyphrases_overlap", []⟩

/-- A relationship of a different type, which the authored condition must
reject. -/
def relCosine : Relationship :=
  ⟨nodeA, nodeB, "cosine_similarity", [("overlapped_items", [("x", "y")])]⟩

/-- A graph with one qualifying triplet carrying non-empty overlapped items. -/
def kgOverlap : KnowledgeGraph := ⟨[nodeA, nodeB], [relOverlap]⟩

/-- A graph whose only relationship is not of type keyphrases_overlap. -/
def kgNoOverlap : KnowledgeGraph := ⟨[nodeA, nodeB], [relCosine]⟩

/-- A graph with one qualifying triplet whose overlapped_items is empty. -/
def kgOverlapEmptyItems : KnowledgeGraph := ⟨[nodeA, nodeB], [relOverlapEmptyItems]⟩

/-- A scenario value used as the output of the concrete combination oracle. -/
def scenario0 : MultiHopScenario :=
  ⟨[nodeA, nodeB], ["hiring"], "Web search like queries", "short",
   ⟨"Hiring manager at gitlab",
    "A hiring manager at gitlab trying to underestand hiring policies in gitlab"⟩⟩

/-- Concrete oracles that never fail: the prompt returns an empty mapping,
prepare_combinations returns one scenario, sample_diverse_combinations keeps
at most the requested number of combinations. -/
def oracleOk : Oracles :=
  ⟨fun _ => Except.ok ⟨[]⟩,
   fun _ _ _ _ _ => Except.ok [scenario0],
   fun l k => Except.ok (l.take k)⟩

/-! The configuration file workspace.toml, embedded as pure data. -/

/-- The ruff table of workspace.toml. -/
structure RuffConfig where
  select : List String
  ignore : List String
  lineLength : Nat
  targetVersion : String
  exclude : List String
deriving DecidableEq, Repr

/-- The ruff lint isort table of workspace.toml. -/
structure IsortConfig where
  knownFirstParty : List String
  forceSingleLine : Bool
  combineAsImports : Bool
deriving DecidableEq, Repr

/-- The black table of workspace.toml. -/
structure BlackConfig where
  lineLength : Nat
  targetVersion : List String
  «include» : String
deriving DecidableEq, Repr

/-- The pyright table of workspace.toml. -/
structure PyrightConfig where
  «include» : List String
  excludeTypeshedPaths : List String
  pythonVersion : String
  pythonPlatform : String
  typeCheckingMode : String
deriving DecidableEq, Repr

/-- The pytest ini options table of workspace.toml. -/
structure PytestConfig where
  addopts : String
  asyncioDefaultFixtureLoopScope : String
  testpaths : List String
deriving DecidableEq, Repr

/-- All tool tables declared by workspace.toml. -/
structure WorkspaceConfig where
  ruff : RuffConfig
  ruffIsort : IsortConfig
  black : BlackConfig
  pyright : PyrightConfig
  pytest : PytestConfig
deriving DecidableEq, Repr

/-- The contents of workspace.toml, transcribed table by table.  It is a
value of a plain data type: the embedding has no executable behaviour, as the
file is declarative metadata consumed by external tooling. -/
def workspaceConfig : WorkspaceConfig :=
  { ruff := ⟨["E", "F", "I"], ["E501"], 88, "py39", ["*.ipynb"]⟩,
    ruffIsort := ⟨["ragas", "ragas_experimental"], false, true⟩,
    black := ⟨88, ["py39"], "\\.pyi?$"⟩,
    pyright := ⟨["ragas/src/ragas", "experimental/ragas_experimental"],
      ["@types/*"], "3.9", "All", "basic"⟩,
    pytest := ⟨"-n 0", "function", ["ragas/tests"]⟩ }

/-! The notebook as a sequence of steps, in document order. -/

/-- The steps of the notebook, one per cell that performs work. -/
inductive NotebookStep where
  | downloadDocs
  | loadDocuments
  | populateKnowledgeGraph
  | setupModels
  | setupTransforms
  | applyTransformsStep
  | configurePersonas
  | defineSynthesizer
  | generateScenariosStep
  | inspectScenario
  | generateSampleStep
  | inspectSample
deriving DecidableEq, Repr

/-- The cells of the notebook in document order: the git clone of the sample
documents, the DirectoryLoader load, the loop appending document nodes to the
KnowledgeGraph, the llm and embedding factory calls, the extractor and
relationship-builder construction, the apply_transforms call, the Persona
definitions, the MyMultiHopQuery subclass definition, the awaited
generate_scenarios call, the scenario inspection, the awaited generate_sample
call and the result inspection. -/
def notebookCellOrder : List NotebookStep :=
  [NotebookStep.downloadDocs, NotebookStep.loadDocuments,
   NotebookStep.populateKnowledgeGraph, NotebookStep.setupModels,
   NotebookStep.setupTransforms, NotebookStep.applyTransformsStep,
   NotebookStep.configurePersonas, NotebookStep.defineSynthesizer,
   NotebookStep.generateScenariosStep, NotebookStep.inspectScenario,
   NotebookStep.generateSampleStep, NotebookStep.inspectSample]

/-- The two awaits of the notebook top level, in document order: the
generate_scenarios call and the generate_sample call. -/
def notebookAwaits : List AwaitEvent :=
  [AwaitEvent.generateScenariosCall, AwaitEvent.generateSampleCall]

/-! Shared lemmas about the loop of the overridden method. -/

/-- When no relationship of the graph satisfies the authored condition, the
query returns no triplets. -/
lemma find_two_eq_nil (g : KnowledgeGraph)
    (hg : ∀ r ∈ g.relationships, relationship_condition r = false) :
    find_two_nodes_single_rel g relationship_condition = [] := by
  unfold find_two_nodes_single_rel
  have hf : g.relationships.filter relationship_condition = [] := by
    rw [List.filter_eq_nil_iff]
    intro r hr
    simp [hg r hr]
  rw [hf]
  rfl

/-- A triplet reached once the scenario list already holds n or more
scenarios is skipped entirely: no change, no await. -/
lemma processTriplet_skip (O : Oracles) (n q : Nat) (pl : List Persona)
    (scenarios : List MultiHopScenario) (t : Triplet)
    (h : ¬ scenarios.length < n) :
    processTriplet O n q pl scenarios t = Except.ok (scenarios, []) := by
  unfold processTriplet
  rw [if_neg h]

/-- A successful iteration grows the scenario list by at most q entries,
leaves it unchanged when the guard fails, and emits either no await event or
exactly one prompt await. -/
lemma processTriplet_ok_facts (O : Oracles) (n q : Nat) (pl : List Persona)
    (scenarios s : List MultiHopScenario) (evs : List AwaitEvent) (t : Triplet)
    (hO : ∀ l k r, O.sample_diverse_combinations l k = Except.ok r → r.length ≤ k)
    (h : processTriplet O n q pl scenarios t = Except.ok (s, evs)) :
    s.length ≤ scenarios.length + q ∧ (¬ scenarios.length < n → s = scenarios) := by
  unfold processTriplet at h
  split at h
  · rename_i hlt
    split at h
    · exact nomatch h
    · rename_i ks heq
      split at h
      · simp only [Except.ok.injEq, Prod.mk.injEq] at h
        obtain ⟨rfl, rfl⟩ := h
        exact ⟨Nat.le_add_right _ _, fun _ => rfl⟩
      · rename_i hks
        split at h
        · exact nomatch h
        · rename_i pc heq2
          split at h
          · exact nomatch h
          · rename_i base heq3
            split at h
            · exact nomatch h
            · rename_i base2 heq4
              simp only [Except.ok.injEq, Prod.mk.injEq] at h
              obtain ⟨rfl, rfl⟩ := h
              refine ⟨?_, fun hn => absurd hlt hn⟩
              have hb := hO base q base2 heq4
              simp only [List.length_append]
              omega
  · simp only [Except.ok.injEq, Prod.mk.injEq] at h
    obtain ⟨rfl, rfl⟩ := h
    exact ⟨Nat.le_add_right _ _, fun _ => rfl⟩

/-- The await events emitted by one successful iteration: none, or exactly
one persona-matching prompt await. -/
lemma processTriplet_ok_events (O : Oracles) (n q : Nat) (pl : List Persona)
    (scenarios s : List MultiHopScenario) (evs : List AwaitEvent) (t : Triplet)
    (h : processTriplet O n q pl scenarios t = Except.ok (s, evs)) :
    evs = [] ∨ ∃ th, evs = [AwaitEvent.promptGenerate th pl] := by
  unfold processTriplet at h
  split at h
  · split at h
    · exact nomatch h
    · rename_i ks heq
      split at h
      · simp only [Except.ok.injEq, Prod.mk.injEq] at h
        exact Or.inl h.2.symm
      · split at h
        · exact nomatch h
        · split at h
          · exact nomatch h
          · split at h
            · exact nomatch h
            · simp only [Except.ok.injEq, Prod.mk.injEq] at h
              exact Or.inr ⟨pyDictKeys ks, h.2.symm⟩
  · simp only [Except.ok.injEq, Prod.mk.injEq] at h
    exact Or.inl h.2.symm

/-- A successful run of the loop grows the accumulator by at most q entries
per remaining triplet. -/
lemma loop_length_le (O : Oracles) (n q : Nat) (pl : List Persona)
    (hO : ∀ l k r, O.sample_diverse_combinations l k = Except.ok r → r.length ≤ k) :
    ∀ (rest : List Triplet) (scenarios : List MultiHopScenario)
      (trace : List AwaitEvent) (s : List MultiHopScenario) (tr : List AwaitEvent),
      generateScenariosLoop O n q pl rest scenarios trace = Except.ok (s, tr) →
      s.length ≤ scenarios.length + rest.length * q := by
  intro rest
  induction rest with
  | nil =>
    intro scenarios trace s tr h
    unfold generateScenariosLoop at h
    simp only [Except.ok.injEq, Prod.mk.injEq] at h
    obtain ⟨rfl, rfl⟩ := h
    simp
  | cons t rest ih =>
    intro scenarios trace s tr h
    unfold generateScenariosLoop at h
    split at h
    · exact nomatch h
    · rename_i s1 evs heq
      have hfacts := processTriplet_ok_facts O n q pl scenarios s1 evs t hO heq
      have hrec := ih s1 (trace ++ evs) s tr h
      rw [List.length_cons, Nat.succ_mul]
      have := hfacts.1
      linarith

/-- With a quota of one, a successful run of the loop never pushes the
accumulator past n. -/
lemma loop_le_n_q1 (O : Oracles) (n : Nat) (pl : List Persona)
    (hO : ∀ l k r, O.sample_diverse_combinations l k = Except.ok r → r.length ≤ k) :
    ∀ (rest : List Triplet) (scenarios : List MultiHopScenario)
      (trace : List AwaitEvent) (s : List MultiHopScenario) (tr : List AwaitEvent),
      scenarios.length ≤ n →
      generateScenariosLoop O n 1 pl rest scenarios trace = Except.ok (s, tr) →
      s.length ≤ n := by
  intro rest
  induction rest with
  | nil =>
    intro scenarios trace s tr hs h
    unfold generateScenariosLoop at h
    simp only [Except.ok.injEq, Prod.mk.injEq] at h
    obtain ⟨rfl, rfl⟩ := h
    exact hs
  | cons t rest ih =>
    intro scenarios trace s tr hs h
    unfold generateScenariosLoop at h
    split at h
    · exact nomatch h
    · rename_i s1 evs heq
      have hfacts := processTriplet_ok_facts O n 1 pl scenarios s1 evs t hO heq
      by_cases hlt : scenarios.length < n
      · exact ih s1 (trace ++ evs) s tr (by omega) h
      · rw [hfacts.2 hlt] at h
        exact ih scenarios (trace ++ evs) s tr hs h

/-- A successful run of the overridden method returns at most n scenarios. -/
lemma generateScenarios_len_le (O : Oracles) (g kgp : KnowledgeGraph) (n : Nat)
    (pl : List Persona) (s : List MultiHopScenario) (tr : List AwaitEvent)
    (hO : ∀ l k r, O.sample_diverse_combinations l k = Except.ok r → r.length ≤ k)
    (h : _generate_scenarios O g n kgp pl = Except.ok (s, tr)) :
    s.length ≤ n := by
  simp only [_generate_scenarios] at h
  split at h
  · exact nomatch h
  · rename_i q heq
    have hT : (find_two_nodes_single_rel g relationship_condition).length ≠ 0 := by
      intro h0
      unfold num_sample_per_triplet pyFloorDiv at heq
      rw [h0] at heq
      exact nomatch heq
    have hq : q = max 1 (n / (find_two_nodes_single_rel g relationship_condition).length) := by
      unfold num_sample_per_triplet pyFloorDiv at heq
      rw [if_neg hT] at heq
      simp only [Except.map, Except.ok.injEq] at heq
      exact heq.symm
    by_cases hd : n / (find_two_nodes_single_rel g relationship_condition).length = 0
    · have hq1 : q = 1 := by rw [hq, hd]; rfl
      rw [hq1] at h
      exact loop_le_n_q1 O n pl hO _ _ _ s tr (by simp) h
    · have hq2 : q = n / (find_two_nodes_single_rel g relationship_condition).length := by
        rw [hq]
        exact Nat.max_eq_right (Nat.one_le_iff_ne_zero.mpr hd)
      have hb := loop_length_le O n q pl hO _ _ _ s tr h
      simp only [List.length_nil, Nat.zero_add] at hb
      calc s.length ≤ (find_two_nodes_single_rel g relationship_condition).length * q := hb
        _ = n / (find_two_nodes_single_rel g relationship_condition).length *
              (find_two_nodes_single_rel g relationship_condition).length := by
            rw [hq2, Nat.mul_comm]
        _ ≤ n := Nat.div_mul_le_self n _

/-- A successful run of the loop only adds persona-matching prompt awaits to
the trace. -/
lemma loop_trace_prompt (O : Oracles) (n q : Nat) (pl : List Persona) :
    ∀ (rest : List Triplet) (scenarios : List MultiHopScenario)
      (trace : List AwaitEvent) (s : List MultiHopScenario) (tr : List AwaitEvent),
      (∀ ev ∈ trace, ∃ th pls, ev = AwaitEvent.promptGenerate th pls) →
      generateScenariosLoop O n q pl rest scenarios trace = Except.ok (s, tr) →
      ∀ ev ∈ tr, ∃ th pls, ev = AwaitEvent.promptGenerate th pls := by
  intro rest
  induction rest with
  | nil =>
    intro scenarios trace s tr hP h
    unfold generateScenariosLoop at h
    simp only [Except.ok.injEq, Prod.mk.injEq] at h
    obtain ⟨rfl, rfl⟩ := h
    exact hP
  | cons t rest ih =>
    intro scenarios trace s tr hP h
    unfold generateScenariosLoop at h
    split at h
    · exact nomatch h
    · rename_i s1 evs heq
      refine ih s1 (trace ++ evs) s tr ?_ h
      intro ev hev
      rcases List.mem_append.mp hev with hev | hev
      · exact hP ev hev
      · rcases processTriplet_ok_events O n q pl scenarios s1 evs t heq with hevs | ⟨th, hevs⟩
        · rw [hevs] at hev
          exact absurd hev (List.not_mem_nil ev)
        · rw [hevs] at hev
          rw [List.mem_singleton.mp hev]
          exact ⟨th, pl, rfl⟩

/-! Claim theorems. -/

/-- C1 (amended): in the overridden method the node-pair query runs on the
notebook module-level graph kg captured by closure, so the returned scenarios
are a function of that global graph and are invariant under the
knowledge_graph parameter, which the body never reads; the two coincide only
because the notebook invocation passes kg as the parameter. -/
theorem C1_knowledge_graph_param_ignored (O : Oracles) (g : KnowledgeGraph)
    (n : Nat) (kgp1 kgp2 : KnowledgeGraph) (pl : List Persona) :
    _generate_scenarios O g n kgp1 pl = _generate_scenarios O g n kgp2 pl := rfl

/-- C1 counterexample: two runs with the identical knowledge_graph argument
but different values of the notebook global graph return different results,
so the returned scenarios are not a function of the knowledge_graph
parameter, refuting the claim as stated. -/
theorem C1_not_function_of_param_cex :
    _generate_scenarios oracleOk kgNoOverlap 5 kgNoOverlap persona_list ≠
      _generate_scenarios oracleOk kgOverlapEmptyItems 5 kgNoOverlap persona_list := by
  intro h
  have h1 : _generate_scenarios oracleOk kgNoOverlap 5 kgNoOverlap persona_list =
      Except.error PyError.zeroDivision := rfl
  have h2 : _generate_scenarios oracleOk kgOverlapEmptyItems 5 kgNoOverlap persona_list =
      Except.ok ([], []) := rfl
  rw [h1, h2] at h
  exact nomatch h

/-- C2: with T >= 1 qualified triplets the per-triplet sample quota of the
overridden method equals max(1, n // T), and that quota is at least 1 for
every n >= 0. -/
theorem C2_quota_eq_max_one_floor_div (n T : Nat) (hT : 1 ≤ T) :
    num_sample_per_triplet n T = Except.ok (max 1 (n / T)) ∧ 1 ≤ max 1 (n / T) := by
  constructor
  · unfold num_sample_per_triplet pyFloorDiv
    rw [if_neg (by omega)]
    rfl
  · exact le_max_left 1 _

/-- C2 witness: the quota theorem evaluated at n = 10 and T = 3. -/
theorem C2_quota_witness :
    (1 : Nat) ≤ 3 ∧
      (num_sample_per_triplet 10 3 = Except.ok (max 1 (10 / 3)) ∧ 1 ≤ max 1 (10 / 3)) :=
  ⟨by decide, C2_quota_eq_max_one_floor_div 10 3 (by decide)⟩

/-- C3: the authored relationship condition accepts a relationship exactly
when its type is the string "keyphrases_overlap", and every triplet the query
returns under that condition carries a relationship of that type. -/
theorem C3_condition_iff_keyphrases_overlap :
    (∀ rel : Relationship,
      relationship_condition rel = true ↔ rel.type = "keyphrases_overlap") ∧
    (∀ (g : KnowledgeGraph) (t : Triplet),
      t ∈ find_two_nodes_single_rel g relationship_condition →
      t.rel.type = "keyphrases_overlap") := by
  constructor
  · intro rel
    unfold relationship_condition
    split
    · rename_i hr
      exact ⟨fun _ => hr, fun _ => rfl⟩
    · rename_i hr
      exact ⟨fun hc => (nomatch hc), fun hc => absurd hc hr⟩
  · intro g t ht
    unfold find_two_nodes_single_rel at ht
    obtain ⟨r, hr, hmk⟩ := List.mem_filterMap.mp ht
    have hcond : relationship_condition r = true := (List.mem_filter.mp hr).2
    have hrt : t.rel = r := by
      split at hmk
      · cases hmk
        rfl
      · exact nomatch hmk
    rw [hrt]
    unfold relationship_condition at hcond
    split at hcond
    · assumption
    · exact nomatch hcond

/-- C3 witness: the membership clause of the condition theorem evaluated on
the concrete one-relationship graph. -/
theorem C3_condition_witness :
    (Triplet.mk nodeA relOverlap nodeB) ∈
        find_two_nodes_single_rel kgOverlap relationship_condition ∧
      (Triplet.mk nodeA relOverlap nodeB).rel.type = "keyphrases_overlap" := by
  have hmem : (Triplet.mk nodeA relOverlap nodeB) ∈
      find_two_nodes_single_rel kgOverlap relationship_condition := by
    rw [show find_two_nodes_single_rel kgOverlap relationship_condition =
        [Triplet.mk nodeA relOverlap nodeB] from rfl]
    exact List.mem_singleton.mpr rfl
  exact ⟨hmem, C3_condition_iff_keyphrases_overlap.2 kgOverlap _ hmem⟩

/-- C4 (amended): the overridden method installs no exception handler, so a
failure raised by an external-library sub-call, whether the property lookup
raising KeyError or the awaited persona-matching prompt call failing,
propagates unchanged through the loop to the caller; the claim that every
failure originates in the external library is refuted separately, since the
authored quota expression itself raises ZeroDivisionError. -/
theorem C4_no_error_handling_propagation (O : Oracles) (n q : Nat)
    (pl : List Persona) (scenarios : List MultiHopScenario) (t : Triplet)
    (rest : List Triplet) (trace : List AwaitEvent) (e : PyError) :
    (scenarios.length < n →
      lookupProp t.rel.properties "overlapped_items" = Except.error e →
      processTriplet O n q pl scenarios t = Except.error e) ∧
    (∀ ks, scenarios.length < n →
      lookupProp t.rel.properties "overlapped_items" = Except.ok ks →
      ks.isEmpty = false →
      O.themePersonaGenerate ⟨pyDictKeys ks, pl⟩ = Except.error e →
      processTriplet O n q pl scenarios t = Except.error e) ∧
    (processTriplet O n q pl scenarios t = Except.error e →
      generateScenariosLoop O n q pl (t :: rest) scenarios trace = Except.error e) := by
  refine ⟨?_, ?_, ?_⟩
  · intro hlt hlook
    unfold processTriplet
    rw [if_pos hlt, hlook]
  · intro ks hlt hlook hks hgen
    unfold processTriplet
    rw [if_pos hlt, hlook]
    split
    · rename_i e2 heq
      exact nomatch heq
    · rename_i ks2 heq
      cases heq
      have hne : ¬ (ks.isEmpty = true) := fun hemp => nomatch (hemp ▸ hks)
      rw [if_neg hne, hgen]
  · intro hstep
    unfold generateScenariosLoop
    rw [hstep]

/-- C4 witness: the KeyError propagation clause evaluated on a triplet whose
relationship lacks the overlapped_items property. -/
theorem C4_propagation_witness :
    ([] : List MultiHopScenario).length < 5 ∧
    lookupProp relNoItems.properties "overlapped_items" =
      Except.error (PyError.keyError "overlapped_items") ∧
    processTriplet oracleOk 5 1 persona_list [] ⟨nodeA, relNoItems, nodeB⟩ =
      Except.error (PyError.keyError "overlapped_items") :=
  ⟨by decide, rfl,
    (C4_no_error_handling_propagation oracleOk 5 1 persona_list []
      ⟨nodeA, relNoItems, nodeB⟩ [] [] (PyError.keyError "overlapped_items")).1
      (by decide) rfl⟩

/-- C4 counterexample: a run in which every external-library oracle succeeds
on all inputs still fails, with the ZeroDivisionError raised by the authored
quota expression on the empty query result; that failure does not originate
in the external library, refuting the claim as stated. -/
theorem C4_zero_division_not_library_cex :
    _generate_scenarios oracleOk kgNoOverlap 5 kgNoOverlap persona_list =
      Except.error PyError.zeroDivision ∧
    num_sample_per_triplet 5
        (find_two_nodes_single_rel kgNoOverlap relationship_condition).length =
      Except.error PyError.zeroDivision ∧
    (∀ x, oracleOk.themePersonaGenerate x ≠ Except.error PyError.zeroDivision) ∧
    (∀ a b c d f, oracleOk.prepare_combinations a b c d f ≠
      Except.error PyError.zeroDivision) ∧
    (∀ l k, oracleOk.sample_diverse_combinations l k ≠
      Except.error PyError.zeroDivision) := by
  refine ⟨rfl, rfl, ?_, ?_, ?_⟩
  · intro x h
    rw [show oracleOk.themePersonaGenerate x = Except.ok ⟨[]⟩ from rfl] at h
    exact nomatch h
  · intro a b c d f h
    rw [show oracleOk.prepare_combinations a b c d f = Except.ok [scenario0] from rfl] at h
    exact nomatch h
  · intro l k h
    rw [show oracleOk.sample_diverse_combinations l k = Except.ok (l.take k) from rfl] at h
    exact nomatch h

/-- C5: when the graph the query runs on has no relationship of type
"keyphrases_overlap" the query returns no triplets and the method fails with
ZeroDivisionError from n // len(results), for every oracle, parameter graph
and persona list; and with at least one qualified triplet the quota
expression cannot raise ZeroDivisionError. -/
theorem C5_empty_query_zero_division (g : KnowledgeGraph) (n T : Nat) :
    ((∀ r ∈ g.relationships, relationship_condition r = false) →
      find_two_nodes_single_rel g relationship_condition = [] ∧
      ∀ (O : Oracles) (kgp : KnowledgeGraph) (pl : List Persona),
        _generate_scenarios O g n kgp pl = Except.error PyError.zeroDivision) ∧
    (1 ≤ T → num_sample_per_triplet n T ≠ Except.error PyError.zeroDivision) := by
  constructor
  · intro hg
    have hnil := find_two_eq_nil g hg
    refine ⟨hnil, ?_⟩
    intro O kgp pl
    simp only [_generate_scenarios, hnil]
    rfl
  · intro hT h
    unfold num_sample_per_triplet pyFloorDiv at h
    rw [if_neg (by omega)] at h
    exact nomatch h

/-- C5 witness: the ZeroDivisionError branch reached on the concrete graph
whose only relationship is of a different type, and the quota expression
succeeding at T = 1. -/
theorem C5_zero_division_witness :
    (∀ r ∈ kgNoOverlap.relationships, relationship_condition r = false) ∧
    find_two_nodes_single_rel kgNoOverlap relationship_condition = [] ∧
    _generate_scenarios oracleOk kgNoOverlap 7 kgNoOverlap persona_list =
      Except.error PyError.zeroDivision ∧
    (1 : Nat) ≤ 1 ∧
    num_sample_per_triplet 7 1 ≠ Except.error PyError.zeroDivision := by
  have hg : ∀ r ∈ kgNoOverlap.relationships, relationship_condition r = false := by
    decide
  refine ⟨hg, ((C5_empty_query_zero_division kgNoOverlap 7 1).1 hg).1,
    ((C5_empty_query_zero_division kgNoOverlap 7 1).1 hg).2 oracleOk kgNoOverlap persona_list,
    by decide, (C5_empty_query_zero_division kgNoOverlap 7 1).2 (by decide)⟩

/-- C6 (amended): granting the claim premise that the library sampler returns
at most the requested number of combinations, a successful run of the
overridden method returns at most (n - 1) + max(1, n // T) scenarios, and in
fact never more than n: the guard before each triplet plus the quota
T * (n // T) <= n cap the total, so the returned length is bounded by n. -/
theorem C6_length_bound (O : Oracles) (g kgp : KnowledgeGraph) (n : Nat)
    (pl : List Persona) (s : List MultiHopScenario) (tr : List AwaitEvent)
    (hO : ∀ l k r, O.sample_diverse_combinations l k = Except.ok r → r.length ≤ k)
    (h : _generate_scenarios O g n kgp pl = Except.ok (s, tr)) :
    s.length ≤ n ∧
    s.length ≤ (n - 1) +
      max 1 (n / (find_two_nodes_single_rel g relationship_condition).length) := by
  have hn := generateScenarios_len_le O g kgp n pl s tr hO h
  refine ⟨hn, ?_⟩
  have hq : 1 ≤ max 1 (n / (find_two_nodes_single_rel g relationship_condition).length) :=
    le_max_left 1 _
  omega

/-- C6 witness: the length bound evaluated on the concrete one-triplet graph
with n = 5 and the concrete oracles. -/
theorem C6_length_bound_witness :
    (∀ l k r, oracleOk.sample_diverse_combinations l k = Except.ok r → r.length ≤ k) ∧
    _generate_scenarios oracleOk kgOverlap 5 kgOverlap persona_list =
      Except.ok ([scenario0], [AwaitEvent.promptGenerate ["hiring", "gitlab"] persona_list]) ∧
    ([scenario0].length ≤ 5 ∧
      [scenario0].length ≤ (5 - 1) +
        max 1 (5 / (find_two_nodes_single_rel kgOverlap relationship_condition).length)) := by
  have hs : ∀ l k r, oracleOk.sample_diverse_combinations l k = Except.ok r →
      r.length ≤ k := by
    intro l k r hr
    cases hr
    rw [List.length_take]
    exact Nat.min_le_left k l.length
  exact ⟨hs, rfl, C6_length_bound oracleOk kgOverlap kgOverlap 5 persona_list _ _ hs rfl⟩

/-- C6 counterexample: the claim that the returned list is not bounded by n
is false; no run whatsoever, under the claim premise that each sampling call
returns at most the requested quota, returns more than n scenarios. -/
theorem C6_never_exceeds_n_cex :
    ¬ ∃ (O : Oracles) (g kgp : KnowledgeGraph) (n : Nat) (pl : List Persona)
        (s : List MultiHopScenario) (tr : List AwaitEvent),
      (∀ l k r, O.sample_diverse_combinations l k = Except.ok r → r.length ≤ k) ∧
      _generate_scenarios O g n kgp pl = Except.ok (s, tr) ∧ n < s.length := by
  rintro ⟨O, g, kgp, n, pl, s, tr, hO, hrun, hlt⟩
  have := generateScenarios_len_le O g kgp n pl s tr hO hrun
  omega

/-- C7: a qualified triplet whose overlapped_items property is the empty list
contributes no scenarios and triggers no persona-matching prompt await, while
a triplet with non-empty overlapped keywords reached while fewer than n
scenarios have been collected triggers the prompt exactly once. -/
theorem C7_prompt_once_per_nonempty_triplet (O : Oracles) (n q : Nat)
    (pl : List Persona) (scenarios : List MultiHopScenario) (t : Triplet)
    (hlt : scenarios.length < n) :
    (lookupProp t.rel.properties "overlapped_items" = Except.ok [] →
      processTriplet O n q pl scenarios t = Except.ok (scenarios, [])) ∧
    (∀ ks res, lookupProp t.rel.properties "overlapped_items" = Except.ok ks →
      ks ≠ [] →
      processTriplet O n q pl scenarios t = Except.ok res →
      res.2 = [AwaitEvent.promptGenerate (pyDictKeys ks) pl]) := by
  constructor
  · intro hlook
    unfold processTriplet
    rw [if_pos hlt, hlook]
    rfl
  · intro ks res hlook hks hres
    unfold processTriplet at hres
    rw [if_pos hlt, hlook] at hres
    split at hres
    · rename_i heq
      exact nomatch heq
    · rename_i ks2 heq
      cases heq
      rw [if_neg (by simp [hks])] at hres
      split at hres
      · exact nomatch hres
      · split at hres
        · exact nomatch hres
        · split at hres
          · exact nomatch hres
          · simp only [Except.ok.injEq] at hres
            rw [← hres]

/-- C7 witness: the empty-keywords clause on the triplet whose
overlapped_items is the empty list, and the one-prompt clause on the triplet
with two overlapped keyword pairs. -/
theorem C7_prompt_witness :
    ([] : List MultiHopScenario).length < 5 ∧
    lookupProp relOverlapEmptyItems.properties "overlapped_items" = Except.ok [] ∧
    processTriplet oracleOk 5 5 persona_list [] ⟨nodeA, relOverlapEmptyItems, nodeB⟩ =
      Except.ok ([], []) ∧
    ([scenario0], [AwaitEvent.promptGenerate ["hiring", "gitlab"] persona_list]).2 =
      [AwaitEvent.promptGenerate ["hiring", "gitlab"] persona_list] := by
  refine ⟨by decide, rfl, ?_, ?_⟩
  · exact (C7_prompt_once_per_nonempty_triplet oracleOk 5 5 persona_list []
      ⟨nodeA, relOverlapEmptyItems, nodeB⟩ (by decide)).1 rfl
  · exact (C7_prompt_once_per_nonempty_triplet oracleOk 5 5 persona_list []
      ⟨nodeA, relOverlap, nodeB⟩ (by decide)).2
      [("hiring", "hiring policies"), ("gitlab", "gitlab handbook")]
      ([scenario0], [AwaitEvent.promptGenerate ["hiring", "gitlab"] persona_list])
      rfl (by decide) rfl

/-- C8: workspace.toml declares the five stated tool-chain concerns: ruff
lint rule selection and ignore list, isort first-party grouping and combined
as-imports, the 88-character formatting line length for both ruff and black,
pyright basic type-checking over the two listed package paths, and the pytest
test discovery path; the embedding is a value of a plain data type with no
runtime behaviour. -/
theorem C8_workspace_toml_settings :
    workspaceConfig.ruff.select = ["E", "F", "I"] ∧
    workspaceConfig.ruff.ignore = ["E501"] ∧
    workspaceConfig.ruff.lineLength = 88 ∧
    workspaceConfig.ruffIsort.knownFirstParty = ["ragas", "ragas_experimental"] ∧
    workspaceConfig.ruffIsort.combineAsImports = true ∧
    workspaceConfig.black.lineLength = 88 ∧
    workspaceConfig.pyright.typeCheckingMode = "basic" ∧
    workspaceConfig.pyright.«include» =
      ["ragas/src/ragas", "experimental/ragas_experimental"] ∧
    workspaceConfig.pytest.testpaths = ["ragas/tests"] :=
  ⟨rfl, rfl, rfl, rfl, rfl, rfl, rfl, rfl, rfl⟩

/-- C9: every await event recorded during a successful run of the overridden
method is a persona-matching prompt call into the external library, and the
notebook top level awaits exactly the scenario-generation call and the
sample-generation call; no other suspension, locking, cancellation or
backpressure construct exists in the embedding. -/
theorem C9_awaits_only_library_calls :
    (∀ (O : Oracles) (g kgp : KnowledgeGraph) (n : Nat) (pl : List Persona)
        (s : List MultiHopScenario) (tr : List AwaitEvent),
      _generate_scenarios O g n kgp pl = Except.ok (s, tr) →
      ∀ ev ∈ tr, ∃ themes personas, ev = AwaitEvent.promptGenerate themes personas) ∧
    notebookAwaits = [AwaitEvent.generateScenariosCall, AwaitEvent.generateSampleCall] := by
  constructor
  · intro O g kgp n pl s tr h
    simp only [_generate_scenarios] at h
    split at h
    · exact nomatch h
    · refine loop_trace_prompt O n _ pl _ [] [] s tr ?_ h
      intro ev hev
      exact absurd hev (List.not_mem_nil ev)
  · rfl

/-- C9 witness: the await trace of the concrete successful run holds only the
one prompt await. -/
theorem C9_awaits_witness :
    _generate_scenarios oracleOk kgOverlap 5 kgOverlap persona_list =
      Except.ok ([scenario0], [AwaitEvent.promptGenerate ["hiring", "gitlab"] persona_list]) ∧
    (∀ ev ∈ [AwaitEvent.promptGenerate ["hiring", "gitlab"] persona_list],
      ∃ themes personas, ev = AwaitEvent.promptGenerate themes personas) :=
  ⟨rfl, fun ev hev => C9_awaits_only_library_calls.1 oracleOk kgOverlap kgOverlap 5
    persona_list _ _ rfl ev hev⟩

/-- C10: in the notebook cell order, document loading precedes
knowledge-graph population, which precedes transform application, which
precedes persona configuration, which precedes the synthesizer subclass
definition, which precedes scenario generation, which precedes the generation
of the single sample. -/
theorem C10_notebook_step_order :
    notebookCellOrder.indexOf NotebookStep.loadDocuments <
      notebookCellOrder.indexOf NotebookStep.populateKnowledgeGraph ∧
    notebookCellOrder.indexOf NotebookStep.populateKnowledgeGraph <
      notebookCellOrder.indexOf NotebookStep.applyTransformsStep ∧
    notebookCellOrder.indexOf NotebookStep.applyTransformsStep <
      notebookCellOrder.indexOf NotebookStep.configurePersonas ∧
    notebookCellOrder.indexOf NotebookStep.configurePersonas <
      notebookCellOrder.indexOf NotebookStep.defineSynthesizer ∧
    notebookCellOrder.indexOf NotebookStep.defineSynthesizer <
      notebookCellOrder.indexOf NotebookStep.generateScenariosStep ∧
    notebookCellOrder.indexOf NotebookStep.generateScenariosStep <
      notebookCellOrder.indexOf NotebookStep.generateSampleStep := by
  decide
